import Mathlib

/-!
Verification development for the Voli-MCP forex session-volatility analyzer.

The analytic core of the repository (`src/analysis/range_calculator.py`,
`src/analysis/pattern_matcher.py`, `src/analysis/confidence_scorer.py`,
`src/utils/formatters.py`, `src/utils/sessions.py`,
`src/tools/session_analyzer.py`) is shallowly embedded below.

Modelling conventions:
* Python floats are modelled as rationals (`ℚ`); Python's `round(x, n)`
  (round half to even) is `roundTo n`.
* Candle timestamps are UTC minutes since an epoch (`ℤ`); the calendar
  date of a candle is its floor-day, the time-of-day its minute within
  the day, matching pandas' `.date` / `.time` accessors.
* A pandas DataFrame is a list of candles together with a flag recording
  whether the auxiliary `date` column has been materialised on the frame
  itself (in-place column assignment is the only mutation the source
  performs on a frame).
* Fallible Python code (functions that `raise`) returns `Except String`.
* External collaborators (candle source, economic calendar) are inputs:
  fetches are `Except String DataFrame` values and the calendar response
  is an `Option String` (the formatted driver text). A counter records
  how many fetch calls the orchestrator actually reaches.
-/

set_option allowUnsafeReducibility true

attribute [semireducible] Rat.mul Rat.add Rat.sub Rat.inv Rat.ofScientific

/-- Python's `round` to an integer: round half to even (banker's rounding). -/
def rndHalfEven (q : ℚ) : ℤ :=
  let n := ⌊q⌋
  let f := q - n
  if f < 1/2 then n
  else if 1/2 < f then n + 1
  else if n % 2 = 0 then n else n + 1

/-- Python's `round(x, d)`: round half to even at `d` decimal places. -/
def roundTo (d : ℕ) (q : ℚ) : ℚ :=
  (rndHalfEven (q * 10 ^ d) : ℚ) / 10 ^ d

/-- Python's `int(x)`: truncation toward zero. -/
def pyInt (q : ℚ) : ℤ :=
  if 0 ≤ q then ⌊q⌋ else ⌈q⌉

lemma le_rndHalfEven {m : ℤ} {q : ℚ} (h : (m : ℚ) ≤ q) : m ≤ rndHalfEven q := by
  have hfl : m ≤ ⌊q⌋ := Int.le_floor.mpr h
  unfold rndHalfEven
  dsimp only
  split
  · exact hfl
  · split
    · omega
    · split
      · exact hfl
      · omega

lemma rndHalfEven_le {m : ℤ} {q : ℚ} (h : q ≤ (m : ℚ)) : rndHalfEven q ≤ m := by
  have hfl : ⌊q⌋ ≤ m := by
    have h0 := Int.floor_mono h
    simpa using h0
  unfold rndHalfEven
  have hlt : ¬ ((q - ⌊q⌋ : ℚ) < 1/2) → ⌊q⌋ + 1 ≤ m := by
    intro hge
    push_neg at hge
    have h1 : (⌊q⌋ : ℚ) + 1/2 ≤ q := by linarith
    have h2 : (⌊q⌋ : ℚ) < (m : ℚ) := by
      calc (⌊q⌋ : ℚ) < (⌊q⌋ : ℚ) + 1/2 := by norm_num
        _ ≤ q := h1
        _ ≤ (m : ℚ) := h
    have h3 : ⌊q⌋ < m := by exact_mod_cast h2
    omega
  dsimp only
  split
  · exact hfl
  · rename_i hnot
    split
    · exact hlt hnot
    · split
      · exact hfl
      · exact hlt hnot

lemma roundTo_nonneg {d : ℕ} {q : ℚ} (h : 0 ≤ q) : 0 ≤ roundTo d q := by
  unfold roundTo
  have h1 : (0 : ℚ) ≤ q * 10 ^ d := by positivity
  have h2 : (0 : ℤ) ≤ rndHalfEven (q * 10 ^ d) := le_rndHalfEven (by exact_mod_cast h1)
  have h3 : (0 : ℚ) ≤ (rndHalfEven (q * 10 ^ d) : ℚ) := by exact_mod_cast h2
  positivity

lemma roundTo_le_of_le_div {d : ℕ} {q : ℚ} {m : ℤ} (h : q ≤ (m : ℚ) / 10 ^ d) :
    roundTo d q ≤ (m : ℚ) / 10 ^ d := by
  unfold roundTo
  have hpow : (0 : ℚ) < 10 ^ d := by positivity
  have h1 : q * 10 ^ d ≤ (m : ℚ) := by
    have := mul_le_mul_of_nonneg_right h (le_of_lt hpow)
    calc q * 10 ^ d ≤ (m : ℚ) / 10 ^ d * 10 ^ d := this
      _ = (m : ℚ) := by field_simp
  have h2 : rndHalfEven (q * 10 ^ d) ≤ m := rndHalfEven_le h1
  have h3 : (rndHalfEven (q * 10 ^ d) : ℚ) ≤ (m : ℚ) := by exact_mod_cast h2
  have hpow' : (0 : ℚ) ≤ (10 ^ d : ℚ)⁻¹ := by positivity
  calc (rndHalfEven (q * 10 ^ d) : ℚ) / 10 ^ d
      = (rndHalfEven (q * 10 ^ d) : ℚ) * (10 ^ d : ℚ)⁻¹ := by ring
    _ ≤ (m : ℚ) * (10 ^ d : ℚ)⁻¹ := mul_le_mul_of_nonneg_right h3 hpow'
    _ = (m : ℚ) / 10 ^ d := by ring

/-! ## Pair utilities (`src/utils/formatters.py`) -/

/-- String suffix test at the character-list level (Python `str.endswith`). -/
def strEndsWith (s suffix : String) : Bool :=
  decide (s.data.reverse.take suffix.data.length = suffix.data.reverse)

/-- Character-wise lowercasing (Python `str.lower`). -/
def strToLower (s : String) : String :=
  String.mk (s.data.map Char.toLower)

/-- Separator characters removed by `normalize_pair_format`. -/
def isPairSep (c : Char) : Bool :=
  c = '/' || c = '-' || c = '_' || c = ' '

/-- Uppercasing plus separator removal performed by `normalize_pair_format`. -/
def normalizeCore (s : String) : String :=
  String.mk ((s.data.map Char.toUpper).filter (fun c => ! isPairSep c))

/-- `normalize_pair_format`: normalise, then require exactly six characters. -/
def normalize_pair_format (s : String) : Except String String :=
  let n := normalizeCore s
  if n.length = 6 then Except.ok n
  else Except.error ("Invalid pair format: " ++ s ++ ". Expected 6-character currency pair.")

/-- `display_pair_format`: `EURUSD ↦ EUR/USD` (after re-normalising). -/
def display_pair_format (s : String) : String :=
  let n := normalizeCore s
  String.mk (n.data.take 3) ++ "/" ++ String.mk (n.data.drop 3)

/-- The flattened `ALL_PAIRS` list of `formatters.py`. -/
def ALL_PAIRS : List String :=
  ["EUR/USD", "USD/JPY", "GBP/USD", "USD/CHF", "AUD/USD", "USD/CAD", "NZD/USD",
   "EUR/GBP", "EUR/AUD", "EUR/CAD", "EUR/CHF", "GBP/JPY", "EUR/JPY", "GBP/CHF",
   "AUD/JPY", "NZD/JPY", "CHF/JPY",
   "USD/SGD", "USD/HKD", "USD/ZAR", "USD/MXN", "USD/TRY", "EUR/TRY", "GBP/ZAR"]

/-- `validate_pair`: membership of the display form in `ALL_PAIRS`,
with the length `ValueError` caught as `False`. -/
def validate_pair (s : String) : Bool :=
  match normalize_pair_format s with
  | Except.error _ => false
  | Except.ok n => ALL_PAIRS.contains (display_pair_format n)

/-- `get_pip_value`: `0.01` for JPY-quoted pairs, `0.0001` otherwise. -/
def get_pip_value (pair : String) : ℚ :=
  if strEndsWith (normalizeCore pair) "JPY" then 1/100 else 1/10000

/-- `price_to_pips`: price difference divided by pip value, rounded to 1 decimal. -/
def price_to_pips (priceDifference : ℚ) (pair : String) : ℚ :=
  roundTo 1 (priceDifference / get_pip_value pair)

/-! ## Candles and frames -/

/-- One OHLCV candle; `ts` is UTC minutes since the epoch. -/
structure Candle where
  ts : ℤ
  open_ : ℚ
  high : ℚ
  low : ℚ
  close : ℚ
  volume : ℚ
deriving DecidableEq, Repr

/-- A pandas frame: its candle rows, plus whether an auxiliary `date`
column has been materialised in place on this very frame. -/
structure DataFrame where
  rows : List Candle
  hasDateCol : Bool
deriving DecidableEq, Repr

/-- Calendar day of a candle (floor division of the timestamp). -/
def cDate (c : Candle) : ℤ := c.ts.ediv 1440

/-- Time-of-day of a candle, in minutes. -/
def cTod (c : Candle) : ℤ := c.ts.emod 1440

/-- Distinct dates in order of first appearance (pandas `Series.unique`). -/
def datesOf (rows : List Candle) : List ℤ :=
  (rows.map cDate).eraseDups

/-- Insert into an ascending list. -/
def insertSorted (d : ℤ) : List ℤ → List ℤ
  | [] => [d]
  | x :: xs => if d ≤ x then d :: x :: xs else x :: insertSorted d xs

/-- Sort dates ascending (pandas `groupby` orders groups by key). -/
def sortDates (l : List ℤ) : List ℤ := l.foldr insertSorted []

/-- `df.groupby('date')`: one `(date, rows-of-that-date)` group per distinct
date, groups ordered by ascending date, rows keeping their original order. -/
def groupByDate (rows : List Candle) : List (ℤ × List Candle) :=
  (sortDates (datesOf rows)).map (fun d => (d, rows.filter (fun c => decide (cDate c = d))))

/-! ## RangeCalculator (`src/analysis/range_calculator.py`) -/

/-- `RangeCalculator._filter_pre_session`: on the last date appearing in the
frame, keep candles in the half-open window
`[session_start − minutes_before, session_start)`. -/
def filter_pre_session (rows : List Candle) (sessionStart : ℕ) (minutesBefore : ℕ) :
    List Candle :=
  match (datesOf rows).getLast? with
  | none => []
  | some d =>
    let sdt : ℤ := d * 1440 + sessionStart
    let wst : ℤ := sdt - minutesBefore
    rows.filter (fun c => decide (wst ≤ c.ts) && decide (c.ts < sdt))

/-- `RangeCalculator._filter_session`: filter by time-of-day, aware of
windows that wrap midnight. -/
def filter_session (rows : List Candle) (sessionStart sessionEnd : ℕ) : List Candle :=
  if sessionStart < sessionEnd then
    rows.filter (fun c => decide ((sessionStart : ℤ) ≤ cTod c) && decide (cTod c < (sessionEnd : ℤ)))
  else
    rows.filter (fun c => decide ((sessionStart : ℤ) ≤ cTod c) || decide (cTod c < (sessionEnd : ℤ)))

/-- `RangeCalculator.calculate_range_pips`: `(max high − min low)` in pips,
`0.0` for an empty frame. -/
def calculate_range_pips (pair : String) (rows : List Candle) : ℚ :=
  match rows with
  | [] => 0
  | c :: cs =>
    let hi := cs.foldl (fun m x => max m x.high) c.high
    let lo := cs.foldl (fun m x => min m x.low) c.low
    price_to_pips (hi - lo) pair

/-- `RangeCalculator.calculate_pre_session_range`. -/
def calculate_pre_session_range (pair : String) (rows : List Candle)
    (sessionStart : ℕ) (minutesBefore : ℕ) : ℚ :=
  calculate_range_pips pair (filter_pre_session rows sessionStart minutesBefore)

/-- `RangeCalculator.calculate_session_range`. -/
def calculate_session_range (pair : String) (rows : List Candle)
    (sessionStart sessionEnd : ℕ) : ℚ :=
  calculate_range_pips pair (filter_session rows sessionStart sessionEnd)

/-- `RangeCalculator.calculate_30day_avg_range`.  The Python body assigns
`historical_df['date'] = historical_df.index.date` on the caller's frame
without copying, so the embedding returns the (possibly mutated) frame as
the second component alongside the average. -/
def calculate_30day_avg_range (pair : String) (df : DataFrame)
    (sessionStart : ℕ) (minutesWindow : ℕ) (isPreSession : Bool) : ℚ × DataFrame :=
  let groups := groupByDate df.rows
  let ranges := groups.map (fun g =>
    if isPreSession then
      calculate_pre_session_range pair g.2 sessionStart minutesWindow
    else
      calculate_session_range pair g.2 sessionStart ((sessionStart + minutesWindow) % 1440))
  let valid := ranges.filter (fun r => decide (0 < r))
  let avg : ℚ := if valid.isEmpty then 0 else valid.foldl (· + ·) 0 / valid.length
  (avg, { df with hasDateCol := true })

/-- `RangeCalculator.detect_compression`:
`(False, 1.0)` when the average is zero, else the rounded ratio with the
`ratio ≤ threshold` flag. -/
def detect_compression (currentRange avgRange : ℚ) (threshold : ℚ) : Bool × ℚ :=
  if avgRange = 0 then (false, 1)
  else
    let ratio := currentRange / avgRange
    (decide (ratio ≤ threshold), roundTo 2 ratio)

/-- `RangeCalculator.calculate_expected_deviation`: compression-aware
expected session deviation with an unconditional 10-pip floor. -/
def calculate_expected_deviation (currentPreRange avgPreRange
    historicalExpansionRate avgSessionRange : ℚ) : ℚ :=
  let isCompressed := (detect_compression currentPreRange avgPreRange (7/10)).1
  let expected :=
    if isCompressed then
      avgSessionRange + (avgPreRange - currentPreRange) * historicalExpansionRate * (3/2)
    else
      avgSessionRange
  max expected 10

/-! ## PatternMatcher (`src/analysis/pattern_matcher.py`) -/

/-- One entry of the `matches` list built by `find_similar_conditions`. -/
structure MatchRec where
  date : ℤ
  preRange : ℚ
  sessionRange : ℚ
  expanded : Bool
  expansionPips : ℚ
deriving DecidableEq, Repr

/-- The `matches` list of `PatternMatcher.find_similar_conditions`: per
historical calendar day, skip zero pre-session ranges, keep days whose
compression ratio lies within `[ratio − threshold, ratio + threshold]`,
and record whether the session range exceeded 1.5× the pre-session range. -/
def similar_matches (pair : String) (currentPreRange avgPreRange : ℚ)
    (histRows : List Candle) (sessionStart sessionEnd : ℕ) (threshold : ℚ) :
    List MatchRec :=
  let currentRatio := currentPreRange / avgPreRange
  let lowerBound := currentRatio - threshold
  let upperBound := currentRatio + threshold
  (groupByDate histRows).filterMap (fun g =>
    let preRange := calculate_pre_session_range pair g.2 sessionStart 90
    if preRange = 0 then none
    else
      let dayRatio := preRange / avgPreRange
      if lowerBound ≤ dayRatio ∧ dayRatio ≤ upperBound then
        let sessionRange := calculate_session_range pair g.2 sessionStart sessionEnd
        some ⟨g.1, preRange, sessionRange,
              decide (sessionRange > preRange * (3/2)), sessionRange - preRange⟩
      else none)

/-- The dictionary returned by `find_similar_conditions`. -/
structure PatternResult where
  occurrences : ℕ
  expansion_rate : ℚ
  avg_expansion_pips : ℚ
  matched_dates : List ℤ
deriving DecidableEq, Repr

/-- The neutral default returned on the divide-by-zero short-circuit and
when no historical day matched. -/
def neutralPattern : PatternResult := ⟨0, 1/2, 0, []⟩

/-- `PatternMatcher.find_similar_conditions`. -/
def find_similar_conditions (pair : String) (currentPreRange avgPreRange : ℚ)
    (histRows : List Candle) (sessionStart sessionEnd : ℕ) (threshold : ℚ) :
    PatternResult :=
  if avgPreRange = 0 then neutralPattern
  else
    let ms := similar_matches pair currentPreRange avgPreRange histRows
      sessionStart sessionEnd threshold
    if ms.isEmpty then neutralPattern
    else
      let n := ms.length
      let expansionCount := (ms.filter (fun m => m.expanded)).length
      ⟨n,
       roundTo 2 ((expansionCount : ℚ) / n),
       roundTo 1 ((ms.map (fun m => m.expansionPips)).foldl (· + ·) 0 / n),
       (ms.drop (n - 10)).map (fun m => m.date)⟩

/-- The close of the last candle of a non-empty slice (`iloc[-1]`),
written with `c` as the head already peeled off. -/
def lastCloseOf (c : Candle) : List Candle → ℚ
  | [] => c.close
  | x :: xs => lastCloseOf x xs

/-- One step of the day loop of `calculate_directional_bias`: skip days with
an empty session slice, count `close > open` as bullish, everything else
(including `close = open`) as bearish. -/
def dirStep (sessionStart sessionEnd : ℕ) (acc : ℕ × ℕ)
    (g : ℤ × List Candle) : ℕ × ℕ :=
  match filter_session g.2 sessionStart sessionEnd with
  | [] => acc
  | c :: rest =>
    if lastCloseOf c rest > c.open_ then (acc.1 + 1, acc.2)
    else (acc.1, acc.2 + 1)

/-- The `(bullish_days, bearish_days)` counters of
`PatternMatcher.calculate_directional_bias`. -/
def directionalCounts (rows : List Candle)
    (sessionStart sessionEnd : ℕ) : ℕ × ℕ :=
  (groupByDate rows).foldl (dirStep sessionStart sessionEnd) (0, 0)

/-- The dictionary returned by `calculate_directional_bias`; the
`sample_size` key is absent (`none`) in the zero-day early return. -/
structure BiasResult where
  bias : String
  bullish_percentage : ℚ
  bearish_percentage : ℚ
  sample_size : Option ℕ
deriving DecidableEq, Repr

/-- `PatternMatcher.calculate_directional_bias`. -/
def calculate_directional_bias (rows : List Candle)
    (sessionStart sessionEnd : ℕ) : BiasResult :=
  let counts := directionalCounts rows sessionStart sessionEnd
  let total := counts.1 + counts.2
  if total = 0 then ⟨"neutral", 50, 50, none⟩
  else
    let bullishPct := (counts.1 : ℚ) / total * 100
    let bearishPct := (counts.2 : ℚ) / total * 100
    ⟨if bullishPct > 60 then "bullish"
      else if bearishPct > 60 then "bearish" else "neutral",
     roundTo 1 bullishPct, roundTo 1 bearishPct, some total⟩

/-! ## ConfidenceScorer (`src/analysis/confidence_scorer.py`) -/

/-- Sample-size component: `min(occurrences / 120, 1.0) * 0.40`. -/
def sampleScore (occurrences : ℕ) : ℚ :=
  min ((occurrences : ℚ) / 120) 1 * (2/5)

/-- Pattern-strength component: `abs(expansion_rate - 0.5) * 2 * 0.25`. -/
def patternScore (expansionRate : ℚ) : ℚ :=
  |expansionRate - 1/2| * 2 * (1/4)

/-- Event-catalyst component: `0.20` if an event is scheduled, else `0`. -/
def eventScore (hasEvent : Bool) : ℚ :=
  if hasEvent then 1/5 else 0

/-- Data-quality component: `max(0, 1 - data_age_days / max_data_age) * 0.15`. -/
def dataScore (dataAgeDays maxDataAge : ℕ) : ℚ :=
  max 0 (1 - (dataAgeDays : ℚ) / maxDataAge) * (3/20)

/-- `ConfidenceScorer.calculate_confidence`: weighted sum of the four
components, capped at `0.85` and rounded to two decimals. -/
def calculate_confidence (occurrences : ℕ) (expansionRate : ℚ) (hasEvent : Bool)
    (dataAgeDays : ℕ) (maxDataAge : ℕ) : ℚ :=
  let total := sampleScore occurrences + patternScore expansionRate
    + eventScore hasEvent + dataScore dataAgeDays maxDataAge
  roundTo 2 (min total (85/100))

/-- `ConfidenceScorer.adjust_for_volatility_regime`: no change when the
average ATR is zero; otherwise a ratio-dependent adjustment re-clamped to
`[0, 0.85]` and rounded to two decimals. -/
def adjust_for_volatility_regime (baseConfidence currentAtr avgAtr
    adjustmentFactor : ℚ) : ℚ :=
  if avgAtr = 0 then baseConfidence
  else
    let volatilityRatio := currentAtr / avgAtr
    let adjustment :=
      if volatilityRatio > 3/2 ∨ volatilityRatio < 1/2 then -adjustmentFactor
      else if 4/5 ≤ volatilityRatio ∧ volatilityRatio ≤ 6/5 then adjustmentFactor * (1/2)
      else 0
    roundTo 2 (max 0 (min (baseConfidence + adjustment) (85/100)))

/-! ## Sessions (`src/utils/sessions.py`) -/

/-- Static per-session configuration from the `SESSIONS` table
(name, start and end in minutes after UTC midnight). -/
structure SessionInfo where
  name : String
  startMin : ℕ
  endMin : ℕ
deriving DecidableEq, Repr

/-- `get_session_info` / the `SESSIONS` dictionary; `none` models the
`ValueError` raised for an unknown key. -/
def session_info (key : String) : Option SessionInfo :=
  if key = "asian" then some ⟨"Asian Session", 0, 540⟩
  else if key = "london" then some ⟨"London Session", 480, 960⟩
  else if key = "ny" then some ⟨"New York Session", 780, 1260⟩
  else none

/-- The membership test `session_key in SESSIONS`. -/
def sessionKnown (key : String) : Bool :=
  (session_info key).isSome

/-- One window test of `get_current_session`, aware of midnight wrap. -/
def sessionActive (startMin endMin tod : ℕ) : Bool :=
  if startMin < endMin then decide (startMin ≤ tod) && decide (tod < endMin)
  else decide (tod ≥ startMin) || decide (tod < endMin)

/-- `get_current_session`: first active session in dictionary order
(asian, london, ny), else `"closed"`. -/
def get_current_session (tod : ℕ) : String :=
  if sessionActive 0 540 tod then "asian"
  else if sessionActive 480 960 tod then "london"
  else if sessionActive 780 1260 tod then "ny"
  else "closed"

/-- The session key returned by `get_next_session` (the start datetime it
also returns is discarded by the orchestrator). -/
def get_next_session_key (tod : ℕ) : String :=
  if tod < 0 then "asian"
  else if tod < 480 then "london"
  else if tod < 780 then "ny"
  else "asian"

/-- A UTC instant as the orchestrator observes it: weekday
(`0 = Monday … 6 = Sunday`) and minute of the day. -/
structure Now where
  weekday : ℕ
  todMin : ℕ
deriving DecidableEq, Repr

/-- `is_weekend`: Friday from 21:00 UTC, all of Saturday, and Sunday
before 22:00 UTC. -/
def is_weekend (n : Now) : Bool :=
  if n.weekday = 4 ∧ n.todMin ≥ 1260 then true
  else if n.weekday = 5 then true
  else if n.weekday = 6 ∧ n.todMin < 1320 then true
  else false

/-- `SessionAnalyzer._get_session_duration` in minutes, wrapping overnight
sessions past midnight. -/
def session_duration (startMin endMin : ℕ) : ℕ :=
  if endMin < startMin then endMin + 1440 - startMin else endMin - startMin

/-! ## Output formatting (`src/utils/formatters.py`) -/

/-- `classify_volatility`: pair-type thresholds (JPY 25/60, else 15/35)
scaled by the session multiplier (asian 0.7, london 1.2, ny 1.1, else 1). -/
def classify_volatility (expectedPips : ℚ) (pair : String) (session : String) : String :=
  let normalized := normalizeCore pair
  let lowThreshold : ℚ := if strEndsWith normalized "JPY" then 25 else 15
  let highThreshold : ℚ := if strEndsWith normalized "JPY" then 60 else 35
  let multiplier : ℚ :=
    if strToLower session = "asian" then 7/10
    else if strToLower session = "london" then 6/5
    else if strToLower session = "ny" then 11/10
    else 1
  let adjustedLow := lowThreshold * multiplier
  let adjustedHigh := highThreshold * multiplier
  if expectedPips < adjustedLow then "Low"
  else if expectedPips < adjustedHigh then "Medium"
  else "High"

/-- `generate_agent_guidance`: the priority-ordered rule list mapping the
tier, expansion rate, compression flag and event flag to a fixed sentence. -/
def generate_agent_guidance (volatilityLevel : String) (expansionRate : ℚ)
    (isCompressed : Bool) (hasEvent : Bool) : String :=
  if volatilityLevel = "High" ∧ expansionRate > 3/5 ∧ isCompressed = true then
    "Avoid mean-reversion strategies; favor breakout or momentum confirmation setups."
  else if volatilityLevel = "High" ∧ hasEvent = true then
    "High-impact event expected; consider wider stops and wait for initial volatility to settle before entering."
  else if volatilityLevel = "Low" ∧ expansionRate < 2/5 then
    "Range-bound conditions likely; favor mean-reversion strategies with tight stops."
  else if isCompressed = true ∧ expansionRate > 1/2 then
    "Compressed range suggests coiled spring; monitor for breakout in direction of higher timeframe trend."
  else if volatilityLevel = "Medium" then
    "Moderate volatility expected; standard risk management applies. Watch for direction confirmation."
  else if hasEvent = true ∧ expansionRate < 1/2 then
    "Event scheduled but historical expansion limited; consider reduced position sizing and avoid early entries."
  else
    "Mixed signals; wait for clearer price action confirmation before entering positions."

/-- Python's `f"{x:.0f}"`: the float rendered with zero decimals
(round half to even). -/
def fmtF0 (q : ℚ) : String := toString (rndHalfEven q)

/-- Python's `f"{x:.0%}"`: the float as a percentage with zero decimals. -/
def fmtPct0 (q : ℚ) : String := toString (rndHalfEven (q * 100)) ++ "%"

/-- The final analysis dictionary (`format_session_output` /
`_weekend_response` shape). -/
structure AnalysisOutput where
  pair : String
  session : String
  time_window_minutes : ℕ
  volatility_expectation : String
  expected_deviation_pips : ℚ
  confidence : ℚ
  drivers : List String
  occurrences : ℕ
  expansion_rate : ℚ
  agent_guidance : String
deriving DecidableEq, Repr

/-- `format_session_output` as the orchestrator calls it (both optional
arguments supplied, so the auto-generation branches are skipped). -/
def format_session_output (pair session : String) (timeWindowMinutes : ℕ)
    (expectedDeviationPips confidence : ℚ) (drivers : List String)
    (occurrences : ℕ) (expansionRate : ℚ)
    (volatilityLevel agentGuidance : String) : AnalysisOutput :=
  { pair := display_pair_format pair
    session := session
    time_window_minutes := timeWindowMinutes
    volatility_expectation := volatilityLevel
    expected_deviation_pips := roundTo 1 expectedDeviationPips
    confidence := roundTo 2 confidence
    drivers := drivers
    occurrences := occurrences
    expansion_rate := roundTo 2 expansionRate
    agent_guidance := agentGuidance }

/-- `SessionAnalyzer._weekend_response`. -/
def weekend_response (pair : String) : AnalysisOutput :=
  { pair := pair
    session := "Market Closed"
    time_window_minutes := 0
    volatility_expectation := "None"
    expected_deviation_pips := 0
    confidence := 0
    drivers := ["Forex market closed for weekend", "Market reopens Sunday 22:00 UTC"]
    occurrences := 0
    expansion_rate := 0
    agent_guidance := "Wait for market open. Review weekly levels and news during closure." }

/-! ## Orchestrator (`src/tools/session_analyzer.py`) -/

/-- `SessionAnalyzer._generate_drivers`: compression status, optional
event text (the calendar collaborator's formatted driver), and the
historical-pattern sentence chosen by rate thresholds. -/
def generate_drivers (currentPreRange avgPreRange compressionRatio : ℚ)
    (isCompressed : Bool) (event : Option String) (pr : PatternResult) :
    List String :=
  let d1 :=
    if isCompressed then
      "Asian session range compressed (" ++ fmtF0 currentPreRange
        ++ " pips vs 30-day avg of " ++ fmtF0 avgPreRange ++ " pips)"
    else
      "Pre-session range at " ++ fmtF0 currentPreRange ++ " pips ("
        ++ fmtPct0 compressionRatio ++ " of 30-day avg)"
  let eventDrivers := match event with
    | some e => [e]
    | none => []
  let d3 :=
    if isCompressed = true ∧ pr.expansion_rate > 3/5 then
      "Pre-session positioning historically precedes volatility expansion (observed in "
        ++ toString (pyInt (pr.expansion_rate * 100)) ++ "% of "
        ++ toString pr.occurrences ++ " similar days)"
    else if pr.expansion_rate < 2/5 then
      "Similar conditions historically resulted in range-bound action ("
        ++ toString pr.occurrences ++ " historical occurrences)"
    else
      "Historical data shows mixed outcomes for similar conditions ("
        ++ toString pr.occurrences ++ " comparable days)"
  d1 :: eventDrivers ++ [d3]

/-- The inputs of one `analyze_forex_session` request.  The two fetches
and the calendar response stand for the external collaborators: an
`Except.error` fetch models the client raising, and `nearby_event` is the
calendar's already-formatted answer (`none` = no event found). -/
structure AnalyzeArgs where
  pair : String
  target_session : String
  now : Now
  intraday : Except String DataFrame
  historical : Except String DataFrame
  nearby_event : Option String
deriving Repr

/-- The observable outcome of one request: the returned dictionary or the
raised error, plus how many data-source fetches the control flow reached. -/
structure AnalyzeTrace where
  result : Except String AnalysisOutput
  fetchCalls : ℕ
deriving Repr

/-- The session-resolution block of `analyze_forex_session`
(source lines 73-86): `auto` resolves to the active session, else to the
next upcoming one; an explicit name must be a known session key. -/
def resolve_session (targetSession : String) (tod : ℕ) : Except String String :=
  if strToLower targetSession = "auto" then
    let currentSession := get_current_session tod
    if currentSession ≠ "closed" then Except.ok currentSession
    else Except.ok (get_next_session_key tod)
  else
    let k := strToLower targetSession
    if sessionKnown k then Except.ok k
    else Except.error ("Invalid session: " ++ targetSession
      ++ ". Must be \x27asian\x27, \x27london\x27, \x27ny\x27, or \x27auto\x27")

/-- `SessionAnalyzer.analyze_forex_session`: validation, weekend
short-circuit, session resolution, the two fetches, and the analytic
pipeline ending in `format_session_output`. -/
def analyze_forex_session (a : AnalyzeArgs) : AnalyzeTrace :=
  if validate_pair a.pair = false then
    ⟨Except.error ("Unsupported pair: " ++ a.pair ++ ". Use EUR/USD, GBP/USD, USD/JPY, etc."), 0⟩
  else
    match normalize_pair_format a.pair with
    | Except.error e => ⟨Except.error e, 0⟩
    | Except.ok normalized =>
      let displayPair := display_pair_format normalized
      if is_weekend a.now then ⟨Except.ok (weekend_response displayPair), 0⟩
      else
        match resolve_session a.target_session a.now.todMin with
        | Except.error e => ⟨Except.error e, 0⟩
        | Except.ok sessionKey =>
          match session_info sessionKey with
          | none => ⟨Except.error ("Invalid session key: " ++ sessionKey), 0⟩
          | some si =>
            match a.intraday with
            | Except.error e => ⟨Except.error ("Failed to fetch intraday data: " ++ e), 1⟩
            | Except.ok intradayDf =>
              match a.historical with
              | Except.error e => ⟨Except.error ("Failed to fetch historical data: " ++ e), 2⟩
              | Except.ok historicalDf =>
                let sessionStart := si.startMin
                let sessionEnd := si.endMin
                let currentPreRange := calculate_pre_session_range normalized
                  intradayDf.rows sessionStart 90
                let avgPreP := calculate_30day_avg_range normalized historicalDf
                  sessionStart 90 true
                let avgPreRange := avgPreP.1
                let sessionDurationMinutes := session_duration sessionStart sessionEnd
                let avgSessP := calculate_30day_avg_range normalized avgPreP.2
                  sessionStart sessionDurationMinutes false
                let avgSessionRange := avgSessP.1
                let comp := detect_compression currentPreRange avgPreRange (7/10)
                let isCompressed := comp.1
                let compressionRatio := comp.2
                let pr := find_similar_conditions normalized currentPreRange avgPreRange
                  avgSessP.2.rows sessionStart sessionEnd (3/20)
                let hasEvent := a.nearby_event.isSome
                let expectedDeviation := calculate_expected_deviation currentPreRange
                  avgPreRange pr.expansion_rate avgSessionRange
                let confidence := calculate_confidence pr.occurrences pr.expansion_rate
                  hasEvent 30 60
                let drivers := generate_drivers currentPreRange avgPreRange
                  compressionRatio isCompressed a.nearby_event pr
                let volatilityLevel := classify_volatility expectedDeviation
                  normalized sessionKey
                let agentGuidance := generate_agent_guidance volatilityLevel
                  pr.expansion_rate isCompressed hasEvent
                ⟨Except.ok (format_session_output normalized si.name 90
                    expectedDeviation confidence drivers pr.occurrences
                    pr.expansion_rate volatilityLevel agentGuidance), 2⟩

/-! ## Claim-side day predicates for directional bias -/

/-- A historical day counted bullish by the bias loop: its session slice is
non-empty and the slice's last close strictly exceeds its first open. -/
def dayBullish (sessionStart sessionEnd : ℕ) (day : List Candle) : Bool :=
  match filter_session day sessionStart sessionEnd with
  | [] => false
  | c :: rest => decide (lastCloseOf c rest > c.open_)

/-- A historical day counted bearish by the bias loop: non-empty session
slice whose last close is less than or equal to its first open. -/
def dayBearish (sessionStart sessionEnd : ℕ) (day : List Candle) : Bool :=
  match filter_session day sessionStart sessionEnd with
  | [] => false
  | c :: rest => decide (lastCloseOf c rest ≤ c.open_)

/-- A historical day whose session slice is non-empty. -/
def daySessionNonempty (sessionStart sessionEnd : ℕ) (day : List Candle) : Bool :=
  ! (filter_session day sessionStart sessionEnd).isEmpty

/-! ## Concrete inputs used by the claim theorems -/

/-- One historical day for the worked scenario: a pre-session candle
(18-pip range inside the 06:30–08:00 window before London) and one
in-session candle whose high sets the session range. -/
def mkDay (d : ℤ) (sessHigh : ℚ) : List Candle :=
  [⟨d * 1440 + 400, 1.0005, 1.0018, 1.0000, 1.0010, 0⟩,
   ⟨d * 1440 + 500, 1.0005, sessHigh, 1.0000, 1.0010, 0⟩]

/-- Sixteen historical days whose pre-session range (18 pips against a
30-day average of 32) always falls inside the ±0.15 similarity band; the
first ten have a 40-pip session range (expansion: 40 > 1.5 × 18) and the
last six a 20-pip session range (no expansion). -/
def hist16 : List Candle :=
  (List.range 16).flatMap (fun i => mkDay (i + 1) (if i < 10 then 1.0040 else 1.0020))

/-- A one-candle EURUSD frame whose auxiliary date column is absent. -/
def dfOne : DataFrame := ⟨[⟨600, 1, 1.001, 0.999, 1, 0⟩], false⟩

/-- A valid request on a Wednesday at 10:00 UTC for the London session
whose two fetches both succeed with empty frames and whose calendar
reports no event. -/
def emptyFetchArgs : AnalyzeArgs :=
  ⟨"EUR/USD", "london", ⟨2, 600⟩, Except.ok ⟨[], false⟩, Except.ok ⟨[], false⟩, none⟩

/-- The same request issued on Friday at 21:30 UTC (inside the weekend
closure window); the data source and calendar are unchanged. -/
def weekendNowArgs : AnalyzeArgs :=
  ⟨"EUR/USD", "london", ⟨4, 1290⟩, Except.ok ⟨[], false⟩, Except.ok ⟨[], false⟩, none⟩

/-- A valid non-weekend request whose intraday fetch raises. -/
def errFetchArgs : AnalyzeArgs :=
  ⟨"EUR/USD", "london", ⟨2, 600⟩, Except.error "boom", Except.ok ⟨[], false⟩, none⟩

/-- The full output of the empty-fetch run of `emptyFetchArgs`. -/
def emptyFetchOutput : AnalysisOutput :=
  { pair := "EUR/USD", session := "London Session", time_window_minutes := 90,
    volatility_expectation := "Low", expected_deviation_pips := 10,
    confidence := 2/25,
    drivers := ["Pre-session range at 0 pips (100% of 30-day avg)",
                "Historical data shows mixed outcomes for similar conditions (0 comparable days)"],
    occurrences := 0, expansion_rate := 1/2,
    agent_guidance := "Mixed signals; wait for clearer price action confirmation before entering positions." }

/-! ## Component bounds for the confidence scorer -/

lemma sampleScore_bounds (occurrences : ℕ) :
    0 ≤ sampleScore occurrences ∧ sampleScore occurrences ≤ 2/5 := by
  unfold sampleScore
  constructor
  · have h0 : (0 : ℚ) ≤ min ((occurrences : ℚ) / 120) 1 :=
      le_min (by positivity) (by norm_num)
    nlinarith
  · have h1 : min ((occurrences : ℚ) / 120) 1 ≤ 1 := min_le_right _ _
    nlinarith

lemma patternScore_bounds {expansionRate : ℚ} (h0 : 0 ≤ expansionRate)
    (h1 : expansionRate ≤ 1) :
    0 ≤ patternScore expansionRate ∧ patternScore expansionRate ≤ 1/4 := by
  unfold patternScore
  have habs : |expansionRate - 1/2| ≤ 1/2 :=
    abs_le.mpr ⟨by linarith, by linarith⟩
  have habs0 : 0 ≤ |expansionRate - 1/2| := abs_nonneg _
  constructor
  · nlinarith
  · nlinarith

lemma eventScore_bounds (hasEvent : Bool) :
    0 ≤ eventScore hasEvent ∧ eventScore hasEvent ≤ 1/5 := by
  cases hasEvent <;> simp [eventScore]

lemma dataScore_bounds (dataAgeDays maxDataAge : ℕ) (h : 0 < maxDataAge) :
    0 ≤ dataScore dataAgeDays maxDataAge ∧ dataScore dataAgeDays maxDataAge ≤ 3/20 := by
  unfold dataScore
  have hage : (0 : ℚ) ≤ (dataAgeDays : ℚ) / maxDataAge := by positivity
  have hmax0 : (0 : ℚ) ≤ max 0 (1 - (dataAgeDays : ℚ) / maxDataAge) := le_max_left _ _
  have hmax1 : max 0 (1 - (dataAgeDays : ℚ) / maxDataAge) ≤ 1 :=
    max_le (by norm_num) (by linarith)
  constructor
  · nlinarith
  · nlinarith

lemma roundTo2_le_85 {q : ℚ} (h : q ≤ 85/100) : roundTo 2 q ≤ 85/100 := by
  have h2 : q ≤ ((85 : ℤ) : ℚ) / 10 ^ 2 := by
    push_cast
    norm_num
    linarith
  have h3 := roundTo_le_of_le_div h2
  push_cast at h3
  norm_num at h3
  linarith

/-! ## Claim C2 -/

/-- C2 counterexample: in the worked scenario (16 matched historical days,
10 of which expanded), `find_similar_conditions` returns
`expansion_rate = 0.62`, not the claimed `0.63`: Python's `round` is
half-to-even, and `round(10/16, 2) = round(0.625, 2) = 0.62`. -/
theorem c2_counterexample_expansion_rate_is_62 :
    (find_similar_conditions "EURUSD" 18 32 hist16 480 960 (3/20)).occurrences = 16
    ∧ (find_similar_conditions "EURUSD" 18 32 hist16 480 960 (3/20)).expansion_rate = 62/100
    ∧ (find_similar_conditions "EURUSD" 18 32 hist16 480 960 (3/20)).expansion_rate ≠ 63/100 :=
  ⟨by decide, by decide, by decide⟩

/-- C2 (amended): with 16 matched days of which 10 expanded,
`find_similar_conditions` returns `expansion_rate = 0.62` (banker's
rounding of 0.625), and `calculate_confidence` with `occurrences = 16`,
that rate, no event, and data age 5 of 60 days builds
`sample_size_score = 16/120 × 0.40 = 4/75 ≈ 0.053`,
`pattern_strength_score = |0.62 − 0.5| × 2 × 0.25 = 0.06`,
`event_catalyst_score = 0`, `data_quality_score = 0.1375`, and a total of
`0.25` after rounding (not `0.26`). -/
theorem c2_amended_scenario :
    (find_similar_conditions "EURUSD" 18 32 hist16 480 960 (3/20)).occurrences = 16
    ∧ (find_similar_conditions "EURUSD" 18 32 hist16 480 960 (3/20)).expansion_rate = 62/100
    ∧ sampleScore 16 = 4/75
    ∧ patternScore (62/100) = 6/100
    ∧ eventScore false = 0
    ∧ dataScore 5 60 = 1375/10000
    ∧ calculate_confidence 16 (62/100) false 5 60 = 25/100 :=
  ⟨by decide, by decide, by decide, by decide, by decide, by decide, by decide⟩

/-! ## Claim C3 -/

/-- C3 counterexample: `adjust_for_volatility_regime` is an identity when
`avg_atr = 0`, so a base confidence of `0.9` passes through unclamped and
the result lies outside `[0, 0.85]`. -/
theorem c3_counterexample_regime_passthrough :
    adjust_for_volatility_regime (9/10) 0 0 (1/10) = 9/10
    ∧ ¬ adjust_for_volatility_regime (9/10) 0 0 (1/10) ≤ 85/100 :=
  ⟨by decide, by decide⟩

/-- C3 (amended): for occurrences ≥ 0, `expansion_rate ∈ [0,1]`, any event
flag, any non-negative data age (with a positive maximum age),
`calculate_confidence` lies in `[0, 0.85]`; and
`adjust_for_volatility_regime` lies in `[0, 0.85]` for every input whose
base confidence already lies in `[0, 0.85]` (with `avg_atr = 0` the base is
returned unchanged, so out-of-range bases pass through). -/
theorem c3_amended_confidence_bounds :
    (∀ (occurrences dataAgeDays maxDataAge : ℕ) (expansionRate : ℚ) (hasEvent : Bool),
      0 ≤ expansionRate → expansionRate ≤ 1 → 0 < maxDataAge →
      0 ≤ calculate_confidence occurrences expansionRate hasEvent dataAgeDays maxDataAge
      ∧ calculate_confidence occurrences expansionRate hasEvent dataAgeDays maxDataAge ≤ 85/100)
    ∧ (∀ baseConfidence currentAtr avgAtr adjustmentFactor : ℚ,
      0 ≤ baseConfidence → baseConfidence ≤ 85/100 →
      0 ≤ adjust_for_volatility_regime baseConfidence currentAtr avgAtr adjustmentFactor
      ∧ adjust_for_volatility_regime baseConfidence currentAtr avgAtr adjustmentFactor ≤ 85/100) := by
  constructor
  · intro occurrences dataAgeDays maxDataAge expansionRate hasEvent h0 h1 hmax
    obtain ⟨hs0, hs1⟩ := sampleScore_bounds occurrences
    obtain ⟨hp0, hp1⟩ := patternScore_bounds h0 h1
    obtain ⟨he0, he1⟩ := eventScore_bounds hasEvent
    obtain ⟨hd0, hd1⟩ := dataScore_bounds dataAgeDays maxDataAge hmax
    unfold calculate_confidence
    have htot0 : (0 : ℚ) ≤ sampleScore occurrences + patternScore expansionRate
        + eventScore hasEvent + dataScore dataAgeDays maxDataAge := by linarith
    have hmin0 : (0 : ℚ) ≤ min (sampleScore occurrences + patternScore expansionRate
        + eventScore hasEvent + dataScore dataAgeDays maxDataAge) (85/100) :=
      le_min htot0 (by norm_num)
    exact ⟨roundTo_nonneg hmin0, roundTo2_le_85 (min_le_right _ _)⟩
  · intro baseConfidence currentAtr avgAtr adjustmentFactor hb0 hb1
    unfold adjust_for_volatility_regime
    by_cases havg : avgAtr = 0
    · simp only [havg, if_pos rfl]
      exact ⟨hb0, hb1⟩
    · rw [if_neg havg]
      refine ⟨roundTo_nonneg (le_max_left _ _), roundTo2_le_85 ?_⟩
      exact max_le (by norm_num) (min_le_right _ _)

/-- Witness for C3 (amended), at the worked scenario's inputs and at a
stable-regime adjustment of an in-range base confidence. -/
theorem c3_amended_confidence_bounds_witness :
    (0 ≤ calculate_confidence 16 (62/100) false 5 60
      ∧ calculate_confidence 16 (62/100) false 5 60 ≤ 85/100)
    ∧ (0 ≤ adjust_for_volatility_regime (1/2) 1 1 (1/10)
      ∧ adjust_for_volatility_regime (1/2) 1 1 (1/10) ≤ 85/100) :=
  ⟨c3_amended_confidence_bounds.1 16 5 60 (62/100) false (by norm_num) (by norm_num)
      (by norm_num),
   c3_amended_confidence_bounds.2 (1/2) 1 1 (1/10) (by norm_num) (by norm_num)⟩

/-! ## Claim C5 -/

/-- C5 (code bug): `calculate_30day_avg_range` is the one range routine
that assigns the auxiliary `date` column on the caller's frame without
copying first (every sibling method calls `.copy()`), so the input candle
series object is changed by the call: the frame after the call differs
from the frame passed in (same rows, but a materialised `date` column). -/
theorem c5_avg_range_mutates_input :
    (calculate_30day_avg_range "EURUSD" dfOne 480 90 true).2 ≠ dfOne
    ∧ (calculate_30day_avg_range "EURUSD" dfOne 480 90 true).2.hasDateCol = true
    ∧ dfOne.hasDateCol = false
    ∧ (calculate_30day_avg_range "EURUSD" dfOne 480 90 true).2.rows = dfOne.rows :=
  ⟨by decide, by decide, by decide, by decide⟩

/-! ## Claim C6 -/

/-- C6: `calculate_expected_deviation` returns
`avg_session_range + (avg_pre_range − current_pre_range) × rate × 1.5`
when the pre-session range is compressed (`current/avg ≤ 0.7` with a
non-zero average), returns `avg_session_range` otherwise (including the
zero-average guard), each time floored at 10.0 pips, and the result is
always at least 10.0. -/
theorem c6_expected_deviation_spec (currentPreRange avgPreRange
    historicalExpansionRate avgSessionRange : ℚ) :
    10 ≤ calculate_expected_deviation currentPreRange avgPreRange
        historicalExpansionRate avgSessionRange
    ∧ (avgPreRange ≠ 0 → currentPreRange / avgPreRange ≤ 7/10 →
        calculate_expected_deviation currentPreRange avgPreRange
            historicalExpansionRate avgSessionRange
          = max (avgSessionRange
              + (avgPreRange - currentPreRange) * historicalExpansionRate * (3/2)) 10)
    ∧ ((avgPreRange = 0 ∨ 7/10 < currentPreRange / avgPreRange) →
        calculate_expected_deviation currentPreRange avgPreRange
            historicalExpansionRate avgSessionRange = max avgSessionRange 10) := by
  refine ⟨?_, ?_, ?_⟩
  · unfold calculate_expected_deviation
    exact le_max_right _ _
  · intro havg hle
    unfold calculate_expected_deviation detect_compression
    simp [havg, hle]
  · intro h
    unfold calculate_expected_deviation detect_compression
    rcases h with h | h
    · simp [h]
    · by_cases havg : avgPreRange = 0
      · simp [havg]
      · simp [havg, not_le.mpr h]

/-- Witness for C6 at the worked compression scenario
(`current = 18`, `avg = 32`, ratio `0.5625 ≤ 0.7`). -/
theorem c6_expected_deviation_spec_witness :
    10 ≤ calculate_expected_deviation 18 32 (1/2) 50
    ∧ calculate_expected_deviation 18 32 (1/2) 50
        = max (50 + (32 - 18) * (1/2) * (3/2)) 10 :=
  ⟨(c6_expected_deviation_spec 18 32 (1/2) 50).1,
   (c6_expected_deviation_spec 18 32 (1/2) 50).2.1 (by norm_num) (by norm_num)⟩

/-! ## Claim C7 -/

/-- C7: `find_similar_conditions` returns the neutral default
(`occurrence_count 0`, `expansion_rate 0.5`, `avg_expansion_pips 0`,
empty `matched_dates`) exactly when the average pre-session range is zero
(the divide-by-zero short-circuit, before any day is examined) or when no
historical day enters the `matches` list — a day matches when it has a
non-zero pre-session range and its ratio lies inside the similarity band.
The embedding is a total function, mirroring that neither case raises. -/
theorem c7_neutral_default_iff (pair : String) (currentPreRange avgPreRange : ℚ)
    (histRows : List Candle) (sessionStart sessionEnd : ℕ) (threshold : ℚ) :
    find_similar_conditions pair currentPreRange avgPreRange histRows
        sessionStart sessionEnd threshold = neutralPattern
      ↔ (avgPreRange = 0
         ∨ similar_matches pair currentPreRange avgPreRange histRows
             sessionStart sessionEnd threshold = []) := by
  unfold find_similar_conditions
  by_cases havg : avgPreRange = 0
  · simp [havg]
  · rw [if_neg havg]
    by_cases hm : similar_matches pair currentPreRange avgPreRange histRows
        sessionStart sessionEnd threshold = []
    · simp [hm, havg]
    · have hne : (similar_matches pair currentPreRange avgPreRange histRows
          sessionStart sessionEnd threshold).isEmpty = false := by
        simpa [List.isEmpty_iff] using hm
      simp only [hne, Bool.false_eq_true, if_false]
      constructor
      · intro heq
        have hocc := congrArg PatternResult.occurrences heq
        simp [neutralPattern] at hocc
        exact absurd hocc hm
      · intro h
        rcases h with h | h
        · exact absurd h havg
        · exact absurd h hm

/-! ## Claim C10 -/

lemma dirStep_foldl (sessionStart sessionEnd : ℕ) (l : List (ℤ × List Candle))
    (b r : ℕ) :
    l.foldl (dirStep sessionStart sessionEnd) (b, r)
      = (b + l.countP (fun g => dayBullish sessionStart sessionEnd g.2),
         r + l.countP (fun g => dayBearish sessionStart sessionEnd g.2)) := by
  induction l generalizing b r with
  | nil => simp
  | cons g t ih =>
    simp only [List.foldl_cons, List.countP_cons]
    have hstep : dirStep sessionStart sessionEnd (b, r) g
        = (b + (if dayBullish sessionStart sessionEnd g.2 then 1 else 0),
           r + (if dayBearish sessionStart sessionEnd g.2 then 1 else 0)) := by
      unfold dirStep dayBullish dayBearish
      cases hfs : filter_session g.2 sessionStart sessionEnd with
      | nil => simp
      | cons c rest =>
        by_cases hcl : lastCloseOf c rest > c.open_
        · simp [hcl, not_le.mpr hcl]
        · simp [hcl, not_lt.mp hcl]
    rw [hstep, ih]
    simp only [Prod.mk.injEq]
    omega

lemma dir_count_sum (sessionStart sessionEnd : ℕ) (l : List (ℤ × List Candle)) :
    l.countP (fun g => dayBullish sessionStart sessionEnd g.2)
      + l.countP (fun g => dayBearish sessionStart sessionEnd g.2)
      = l.countP (fun g => daySessionNonempty sessionStart sessionEnd g.2) := by
  induction l with
  | nil => simp
  | cons g t ih =>
    simp only [List.countP_cons]
    have : (if dayBullish sessionStart sessionEnd g.2 then 1 else 0)
        + (if dayBearish sessionStart sessionEnd g.2 then 1 else 0)
        = (if daySessionNonempty sessionStart sessionEnd g.2 then 1 else 0) := by
      unfold dayBullish dayBearish daySessionNonempty
      cases hfs : filter_session g.2 sessionStart sessionEnd with
      | nil => simp
      | cons c rest =>
        by_cases hcl : lastCloseOf c rest > c.open_
        · simp [hcl, not_le.mpr hcl]
        · simp [hcl, not_lt.mp hcl]
    omega

/-- C10: in `calculate_directional_bias`, a day with a non-empty session
slice is bullish exactly when its last close strictly exceeds its first
open; a tie (`close = open`) falls into the bearish counter; every
non-empty session day is counted on exactly one side, so
`bullish_days + bearish_days` equals the number of days whose session
slice is non-empty; and that total is the reported `sample_size`. -/
theorem c10_directional_bias_counts (rows : List Candle)
    (sessionStart sessionEnd : ℕ) :
    (directionalCounts rows sessionStart sessionEnd).1
        = (groupByDate rows).countP (fun g => dayBullish sessionStart sessionEnd g.2)
    ∧ (directionalCounts rows sessionStart sessionEnd).2
        = (groupByDate rows).countP (fun g => dayBearish sessionStart sessionEnd g.2)
    ∧ (directionalCounts rows sessionStart sessionEnd).1
        + (directionalCounts rows sessionStart sessionEnd).2
        = (groupByDate rows).countP
            (fun g => daySessionNonempty sessionStart sessionEnd g.2)
    ∧ (calculate_directional_bias rows sessionStart sessionEnd).sample_size
        = (if (directionalCounts rows sessionStart sessionEnd).1
              + (directionalCounts rows sessionStart sessionEnd).2 = 0
           then none
           else some ((directionalCounts rows sessionStart sessionEnd).1
              + (directionalCounts rows sessionStart sessionEnd).2)) := by
  have hfold := dirStep_foldl sessionStart sessionEnd (groupByDate rows) 0 0
  have h1 : (directionalCounts rows sessionStart sessionEnd).1
      = (groupByDate rows).countP (fun g => dayBullish sessionStart sessionEnd g.2) := by
    unfold directionalCounts
    rw [hfold]
    simp
  have h2 : (directionalCounts rows sessionStart sessionEnd).2
      = (groupByDate rows).countP (fun g => dayBearish sessionStart sessionEnd g.2) := by
    unfold directionalCounts
    rw [hfold]
    simp
  refine ⟨h1, h2, ?_, ?_⟩
  · rw [h1, h2]
    exact dir_count_sum sessionStart sessionEnd (groupByDate rows)
  · unfold calculate_directional_bias
    by_cases hz : (directionalCounts rows sessionStart sessionEnd).1
        + (directionalCounts rows sessionStart sessionEnd).2 = 0
    · simp [hz]
    · simp [hz]

/-! ## Orchestrator-level lemmas -/

lemma normalize_ok_of_valid {p : String} (h : validate_pair p = true) :
    normalize_pair_format p = Except.ok (normalizeCore p) := by
  unfold validate_pair at h
  unfold normalize_pair_format at h ⊢
  by_cases hl : (normalizeCore p).length = 6
  · simp [hl]
  · simp [hl] at h

lemma ite3_mem {p q : Prop} [Decidable p] [Decidable q] :
    (if p then "Low" else if q then "Medium" else "High") = "Low"
    ∨ (if p then "Low" else if q then "Medium" else "High") = "Medium"
    ∨ (if p then "Low" else if q then "Medium" else "High") = "High" := by
  by_cases hp : p
  · exact Or.inl (if_pos hp)
  · by_cases hq : q
    · exact Or.inr (Or.inl (by rw [if_neg hp, if_pos hq]))
    · exact Or.inr (Or.inr (by rw [if_neg hp, if_neg hq]))

lemma resolve_session_explicit {targetSession : String} (tod : ℕ)
    (hts : strToLower targetSession ≠ "auto")
    (hsk : sessionKnown (strToLower targetSession) = true) :
    resolve_session targetSession tod = Except.ok (strToLower targetSession) := by
  unfold resolve_session
  rw [if_neg hts]
  simp [hsk]

lemma classify_volatility_cases (expectedPips : ℚ) (pair session : String) :
    classify_volatility expectedPips pair session = "Low"
    ∨ classify_volatility expectedPips pair session = "Medium"
    ∨ classify_volatility expectedPips pair session = "High" := by
  unfold classify_volatility
  exact ite3_mem

/-! ## Claim C1 -/

/-- C1 counterexample: a failed candle fetch IS a hard failure — for a
valid pair, outside the weekend window, with an intraday fetch that
raises `boom`, `analyze_forex_session` re-raises
`Failed to fetch intraday data: boom` to the caller instead of continuing
with fallback values. -/
theorem c1_counterexample_fetch_error_propagates :
    (analyze_forex_session errFetchArgs).result
      = Except.error "Failed to fetch intraday data: boom" := by
  rfl

/-- C1 (amended): a failed candle fetch is a hard failure — the
orchestrator wraps the exception and re-raises it.  An empty (successful)
fetch is not: the pipeline continues with neutral defaults (compression
ratio 1.0 shown in the drivers, occurrences 0, expansion rate 0.5, the
10-pip floor) and low confidence, but it classifies the tier as Low
rather than moderate and appends no driver about the absence of live
data (the driver list is exactly the compression-status and
historical-pattern sentences). -/
theorem c1_amended_fetch_failure_semantics :
    (∀ (a : AnalyzeArgs) (m : String),
      validate_pair a.pair = true →
      is_weekend a.now = false →
      strToLower a.target_session ≠ "auto" →
      sessionKnown (strToLower a.target_session) = true →
      a.intraday = Except.error m →
      (analyze_forex_session a).result
        = Except.error ("Failed to fetch intraday data: " ++ m))
    ∧ (analyze_forex_session emptyFetchArgs).result = Except.ok emptyFetchOutput
    ∧ emptyFetchOutput.drivers
        = ["Pre-session range at 0 pips (100% of 30-day avg)",
           "Historical data shows mixed outcomes for similar conditions (0 comparable days)"]
    ∧ emptyFetchOutput.volatility_expectation = "Low"
    ∧ emptyFetchOutput.expansion_rate = 1/2
    ∧ emptyFetchOutput.occurrences = 0
    ∧ emptyFetchOutput.confidence = 8/100 := by
  refine ⟨?_, by rfl, rfl, rfl, by decide, rfl, by decide⟩
  intro a m hv hw hts hsk hi
  have hn := normalize_ok_of_valid hv
  have hsk2 : (session_info (strToLower a.target_session)).isSome = true := hsk
  obtain ⟨si, hsi⟩ := Option.isSome_iff_exists.mp hsk2
  unfold analyze_forex_session
  simp [hv, hn, hw, resolve_session_explicit a.now.todMin hts hsk, hsi, hi]

/-- Witness for C1 (amended): the error-propagation branch applied to the
concrete failing-fetch request. -/
theorem c1_amended_fetch_failure_semantics_witness :
    (analyze_forex_session errFetchArgs).result
      = Except.error ("Failed to fetch intraday data: " ++ "boom") :=
  c1_amended_fetch_failure_semantics.1 errFetchArgs "boom" (by decide) (by decide)
    (by decide) (by decide) rfl

/-! ## Claim C4 -/

/-- C4 counterexample: the weekend short-circuit result (reachable from
`analyze` inside the closure window) reports
`volatility_expectation = "None"`, which is none of Low,
Normal/Moderate (the code's `Medium`), or High. -/
theorem c4_counterexample_weekend_none :
    (analyze_forex_session weekendNowArgs).result
        = Except.ok (weekend_response "EUR/USD")
    ∧ (weekend_response "EUR/USD").volatility_expectation = "None"
    ∧ (weekend_response "EUR/USD").volatility_expectation ≠ "Low"
    ∧ (weekend_response "EUR/USD").volatility_expectation ≠ "Normal/Moderate"
    ∧ (weekend_response "EUR/USD").volatility_expectation ≠ "Moderate"
    ∧ (weekend_response "EUR/USD").volatility_expectation ≠ "Medium"
    ∧ (weekend_response "EUR/USD").volatility_expectation ≠ "High" :=
  ⟨by rfl, rfl, by decide, by decide, by decide, by decide, by decide⟩

/-- C4 (amended): every successful `analyze` output carries a
`volatility_expectation` in {Low, Medium, High, None}; outside the weekend
window it is always one of Low, Medium (the spec's Normal/Moderate
tier), or High — the weekend short-circuit alone reports `"None"`. -/
theorem c4_amended_volatility_values (a : AnalyzeArgs) (out : AnalysisOutput)
    (h : (analyze_forex_session a).result = Except.ok out) :
    (out.volatility_expectation = "Low" ∨ out.volatility_expectation = "Medium"
      ∨ out.volatility_expectation = "High" ∨ out.volatility_expectation = "None")
    ∧ (is_weekend a.now = false →
        (out.volatility_expectation = "Low" ∨ out.volatility_expectation = "Medium"
          ∨ out.volatility_expectation = "High")) := by
  unfold analyze_forex_session at h
  split at h
  · simp at h
  · split at h
    · simp at h
    · rename_i normalized hnorm
      split at h
      case isTrue hw =>
        simp only [AnalyzeTrace.mk.injEq] at h
        have hout : weekend_response (display_pair_format normalized) = out := by
          simpa using h
        subst hout
        refine ⟨Or.inr (Or.inr (Or.inr rfl)), ?_⟩
        intro hnw
        rw [hnw] at hw
        cases hw
      case isFalse hw =>
        repeat' split at h
        all_goals simp at h
        all_goals
          subst h
          refine ⟨?_, fun _ => ?_⟩ <;>
            simp only [format_session_output] <;>
            first
              | exact (classify_volatility_cases _ _ _).imp id (Or.imp id Or.inl)
              | exact classify_volatility_cases _ _ _

/-- Witness for C4 (amended) at the concrete empty-fetch run, whose
volatility expectation is `"Low"`. -/
theorem c4_amended_volatility_values_witness :
    ((emptyFetchOutput.volatility_expectation = "Low"
        ∨ emptyFetchOutput.volatility_expectation = "Medium"
        ∨ emptyFetchOutput.volatility_expectation = "High"
        ∨ emptyFetchOutput.volatility_expectation = "None")
      ∧ (is_weekend emptyFetchArgs.now = false →
          (emptyFetchOutput.volatility_expectation = "Low"
            ∨ emptyFetchOutput.volatility_expectation = "Medium"
            ∨ emptyFetchOutput.volatility_expectation = "High"))) :=
  c4_amended_volatility_values emptyFetchArgs emptyFetchOutput (by rfl)

/-! ## Claim C8 -/

/-- C8: for every valid pair, a request issued at any instant inside the
weekend closure window (Friday 21:00 UTC to Sunday 22:00 UTC, the
`is_weekend` predicate) short-circuits to the fixed weekend response —
session `"Market Closed"`, confidence 0, expected deviation 0 — and the
control flow never reaches a candle fetch (`fetchCalls = 0`), whatever
the session selector, fetch results, or calendar response would be. -/
theorem c8_weekend_short_circuit (a : AnalyzeArgs)
    (hv : validate_pair a.pair = true) (hw : is_weekend a.now = true) :
    (analyze_forex_session a).result
        = Except.ok (weekend_response (display_pair_format (normalizeCore a.pair)))
    ∧ (weekend_response (display_pair_format (normalizeCore a.pair))).session
        = "Market Closed"
    ∧ (weekend_response (display_pair_format (normalizeCore a.pair))).confidence = 0
    ∧ (weekend_response (display_pair_format (normalizeCore a.pair))).expected_deviation_pips
        = 0
    ∧ (analyze_forex_session a).fetchCalls = 0 := by
  have hn := normalize_ok_of_valid hv
  unfold analyze_forex_session
  simp [hv, hn, hw, weekend_response]

/-- Witness for C8: the EUR/USD London request issued Friday 21:30 UTC. -/
theorem c8_weekend_short_circuit_witness :
    (analyze_forex_session weekendNowArgs).result
        = Except.ok (weekend_response (display_pair_format (normalizeCore "EUR/USD")))
    ∧ (weekend_response (display_pair_format (normalizeCore "EUR/USD"))).session
        = "Market Closed"
    ∧ (weekend_response (display_pair_format (normalizeCore "EUR/USD"))).confidence = 0
    ∧ (weekend_response (display_pair_format (normalizeCore "EUR/USD"))).expected_deviation_pips
        = 0
    ∧ (analyze_forex_session weekendNowArgs).fetchCalls = 0 :=
  c8_weekend_short_circuit weekendNowArgs (by decide) (by decide)

/-! ## Claim C9 -/

/-- C9 counterexample: two `analyze` calls with the same pair, session
selector, data source, and calendar can produce different outputs — the
wall clock is a hidden input.  Here the only difference between the two
requests is the instant of the call (Wednesday 10:00 vs Friday 21:30
UTC), and the results differ (a London analysis vs the market-closed
response). -/
theorem c9_counterexample_clock_is_hidden_input :
    emptyFetchArgs.pair = weekendNowArgs.pair
    ∧ emptyFetchArgs.target_session = weekendNowArgs.target_session
    ∧ emptyFetchArgs.intraday = weekendNowArgs.intraday
    ∧ emptyFetchArgs.historical = weekendNowArgs.historical
    ∧ emptyFetchArgs.nearby_event = weekendNowArgs.nearby_event
    ∧ (analyze_forex_session emptyFetchArgs).result
        ≠ (analyze_forex_session weekendNowArgs).result := by
  refine ⟨rfl, rfl, rfl, rfl, rfl, ?_⟩
  intro h
  have hses := congrArg
    (fun r => match r with | Except.ok o => o.session | Except.error e => e) h
  exact absurd hses (by decide)

/-- C9 (amended): `analyze` is deterministic in its explicit inputs plus
the wall-clock reading: two calls with the same pair, selector, fetches
and calendar response agree whenever both instants are inside the weekend
window, and likewise whenever both are outside it and the selector is
explicit (not `"auto"`); only across the weekend gate (or through `auto`
resolution) can the hidden clock change the result. -/
theorem c9_amended_determinism_modulo_clock :
    (∀ (pair targetSession : String) (n1 n2 : Now)
        (intraday historical : Except String DataFrame) (ev : Option String),
      is_weekend n1 = true → is_weekend n2 = true →
      analyze_forex_session ⟨pair, targetSession, n1, intraday, historical, ev⟩
        = analyze_forex_session ⟨pair, targetSession, n2, intraday, historical, ev⟩)
    ∧ (∀ (pair targetSession : String) (n1 n2 : Now)
        (intraday historical : Except String DataFrame) (ev : Option String),
      is_weekend n1 = false → is_weekend n2 = false →
      strToLower targetSession ≠ "auto" →
      analyze_forex_session ⟨pair, targetSession, n1, intraday, historical, ev⟩
        = analyze_forex_session ⟨pair, targetSession, n2, intraday, historical, ev⟩) := by
  constructor
  · intro pair targetSession n1 n2 intraday historical ev hw1 hw2
    unfold analyze_forex_session
    dsimp only
    rw [hw1, hw2]
    split
    · rfl
    · split
      · rfl
      · rfl
  · intro pair targetSession n1 n2 intraday historical ev hw1 hw2 hts
    unfold analyze_forex_session
    dsimp only
    rw [hw1, hw2]
    unfold resolve_session
    rw [if_neg hts, if_neg hts]

/-- Witness for C9 (amended): the same explicit London request at two
different non-weekend instants gives identical traces. -/
theorem c9_amended_determinism_modulo_clock_witness :
    analyze_forex_session
        ⟨"EUR/USD", "london", ⟨2, 600⟩, Except.ok ⟨[], false⟩, Except.ok ⟨[], false⟩, none⟩
      = analyze_forex_session
        ⟨"EUR/USD", "london", ⟨3, 700⟩, Except.ok ⟨[], false⟩, Except.ok ⟨[], false⟩, none⟩ :=
  c9_amended_determinism_modulo_clock.2 "EUR/USD" "london" ⟨2, 600⟩ ⟨3, 700⟩
    (Except.ok ⟨[], false⟩) (Except.ok ⟨[], false⟩) none (by decide) (by decide) (by decide)
